import Mathlib

/-!
Verification of the rayhunter IMSI-exposure analysis pipeline.

Shallow embedding of:
  * `lib/src/analysis/sliding_window.rs`  (`SlidingWindowRatio`)
  * `lib/src/analysis/imsi_exposure_classifier.rs` (classifier decision table)
  * `lib/src/analysis/imsi_exposure_ratio.rs` (`ImsiExposureRatioAnalyzer`)
  * `lib/src/analysis/diagnostic.rs` (`DiagnosticAnalyzer`)

Modelling conventions:
  * Rust `VecDeque<bool>` becomes `List Bool` with the list head as the
    deque front (the oldest observation); `pop_front` drops the head,
    `push_back` appends at the tail.
  * `f64` ratios and thresholds become `ℚ` (configured values are exact
    small decimals, so the comparisons are modelled exactly; the spec
    itself allows f64 rounding slack).
  * A Rust panic (the `assert!` in `SlidingWindowRatio::new`) is modelled
    as `Option.none` from the constructor.
  * Stateful `&mut self` methods become functions returning a pair of
    result and updated state.
  * `format!` strings become explicit `String` concatenation; `{:.1}` and
    `{:.0}` float formatting is modelled by decimal rounding on `ℚ`.
-/

/-- Modelled from the spec: EMM cause codes of the external pycrate
enums (`AttachRejectEMMCause`, `TAURejectEMMCause`, `ServiceRejectEMMCause`).
The listed constructors cover every cause named in the spec's decision
table plus representative causes outside every table row, so that the
"only if" directions of the classification claims are non-vacuous. -/
inductive EMMCause
  | IMSIUnknownInHSS
  | IllegalUE
  | IMEINotAccepted
  | IllegalME
  | EPSServicesNotAllowed
  | EPSServicesAndNonEPSServicesNotAllowed
  | UEIdentityCannotBeDerivedByTheNetwork
  | ImplicitlyDetached
  | PLMNNotAllowed
  | TrackingAreaNotAllowed
  | RoamingNotAllowedInThisTrackingArea
  | EPSServicesNotAllowedInThisPLMN
  | NoSuitableCellsInTrackingArea
  | MSCTemporarilyNotReachable
  | NetworkFailure
  | CSDomainNotAvailable
  | ESMFailure
  | Congestion
  | RequestedServiceOptionNotAuthorizedInThisPLMN
  | SevereNetworkFailure
  deriving DecidableEq

/-- Rust `Debug` rendering of an EMM cause (derived `Debug` prints the
variant name). -/
def EMMCause.debugRepr : EMMCause → String
  | .IMSIUnknownInHSS => "IMSIUnknownInHSS"
  | .IllegalUE => "IllegalUE"
  | .IMEINotAccepted => "IMEINotAccepted"
  | .IllegalME => "IllegalME"
  | .EPSServicesNotAllowed => "EPSServicesNotAllowed"
  | .EPSServicesAndNonEPSServicesNotAllowed => "EPSServicesAndNonEPSServicesNotAllowed"
  | .UEIdentityCannotBeDerivedByTheNetwork => "UEIdentityCannotBeDerivedByTheNetwork"
  | .ImplicitlyDetached => "ImplicitlyDetached"
  | .PLMNNotAllowed => "PLMNNotAllowed"
  | .TrackingAreaNotAllowed => "TrackingAreaNotAllowed"
  | .RoamingNotAllowedInThisTrackingArea => "RoamingNotAllowedInThisTrackingArea"
  | .EPSServicesNotAllowedInThisPLMN => "EPSServicesNotAllowedInThisPLMN"
  | .NoSuitableCellsInTrackingArea => "NoSuitableCellsInTrackingArea"
  | .MSCTemporarilyNotReachable => "MSCTemporarilyNotReachable"
  | .NetworkFailure => "NetworkFailure"
  | .CSDomainNotAvailable => "CSDomainNotAvailable"
  | .ESMFailure => "ESMFailure"
  | .Congestion => "Congestion"
  | .RequestedServiceOptionNotAuthorizedInThisPLMN =>
      "RequestedServiceOptionNotAuthorizedInThisPLMN"
  | .SevereNetworkFailure => "SevereNetworkFailure"

/-- Modelled from the spec: identity type carried by an EMM Identity
Request (external pycrate `IDTypeIdentityType`). -/
inductive IdentityType
  | IMSI
  | IMEI
  | IMEISV
  | TMSI
  | NoIdentity
  deriving DecidableEq

/-- Rust `Debug` rendering of the identity type. -/
def IdentityType.debugRepr : IdentityType → String
  | .IMSI => "IMSI"
  | .IMEI => "IMEI"
  | .IMEISV => "IMEISV"
  | .TMSI => "TMSI"
  | .NoIdentity => "NoIdentity"

/-- Modelled from the spec: `EPSDetachTypeMTType` of the external pycrate
crate — the detach type of a network-initiated (mobile-terminated) EMM
Detach Request. -/
inductive EPSDetachTypeMTType
  | ReAttachRequired
  | ReAttachNotRequired
  | IMSIDetach
  deriving DecidableEq

/-- Rust `Debug` rendering of the detach type. -/
def EPSDetachTypeMTType.debugRepr : EPSDetachTypeMTType → String
  | .ReAttachRequired => "ReAttachRequired"
  | .ReAttachNotRequired => "ReAttachNotRequired"
  | .IMSIDetach => "IMSIDetach"

/-- Modelled from the spec: the `EPSDetachTypeMT` container of a
mobile-terminated detach request; the classifier reads its `typ` field. -/
structure EPSDetachTypeMT where
  switch_off : Bool
  typ : EPSDetachTypeMTType
  deriving DecidableEq

/-- Rust `Debug` rendering of the detach-type container struct. -/
def EPSDetachTypeMT.debugRepr (d : EPSDetachTypeMT) : String :=
  "EPSDetachTypeMT \x7b switch_off: " ++ (if d.switch_off then "true" else "false")
    ++ ", typ: " ++ d.typ.debugRepr ++ " \x7d"

/-- Modelled from the spec: the EMM message variants of the external
`pycrate_rs` NAS decoder that `classify_emm` inspects; every variant the
classifier does not match is collapsed into `otherEMM` (the code's
catch-all `_ => None` arm). Field wrappers (`.inner`) are flattened. -/
inductive EMMMessage
  | EMMIdentityRequest (id_type : IdentityType)
  | EMMAttachReject (emm_cause : EMMCause)
  | EMMTrackingAreaUpdateReject (emm_cause : EMMCause)
  | EMMServiceReject (emm_cause : EMMCause)
  | EMMAuthenticationReject
  | EMMDetachRequestMT (eps_detach_type : EPSDetachTypeMT) (emm_cause : EMMCause)
  | otherEMM
  deriving DecidableEq

/-- Modelled from the spec: the NAS message sum of `pycrate_rs`; only the
EMM branch is classified, everything else hits the `_ => None` arm. -/
inductive NASMessage
  | EMMMessage (m : EMMMessage)
  | otherNAS
  deriving DecidableEq

/-- Modelled from the spec: `RedirectedCarrierInfo` of the external
`telcom_parser` RRC grammar (payloads of the carrier variants are
irrelevant to classification and omitted). -/
inductive RedirectedCarrierInfo
  | Geran
  | UtraFDD
  | UtraTDD
  | Cdma2000HRPD
  | Cdma20001xRTT
  deriving DecidableEq

/-- Modelled from the spec: the `RRCConnectionRelease-r8-IEs` fields the
classifier reads. -/
structure RRCConnectionRelease_r8_IEs where
  redirected_carrier_info : Option RedirectedCarrierInfo
  deriving DecidableEq

/-- Modelled from the spec: the critical-extensions choice of an RRC
Connection Release; only the `c1 → rrcConnectionRelease-r8` path carries
IEs the classifier reads. -/
inductive RRCConnectionReleaseCriticalExtensions
  | c1_r8 (ies : RRCConnectionRelease_r8_IEs)
  | otherExtensions
  deriving DecidableEq

/-- Modelled from the spec: an RRC Connection Release message body. -/
structure RRCConnectionRelease where
  critical_extensions : RRCConnectionReleaseCriticalExtensions
  deriving DecidableEq

/-- Modelled from the spec: the DL-DCCH message choice; all c1 choices
other than `rrcConnectionRelease`, and the message-class extension, are
collapsed into the non-release variants. -/
inductive DL_DCCH_MessageType
  | c1RrcConnectionRelease (r : RRCConnectionRelease)
  | c1Other
  | messageClassExtension
  deriving DecidableEq

/-- Modelled from the spec: a DL-DCCH message container. -/
structure DL_DCCH_Message where
  message : DL_DCCH_MessageType
  deriving DecidableEq

/-- Modelled from the spec: the UE identity of a paging record
(`PagingUE-Identity` choice: s-TMSI or IMSI; payloads omitted). -/
inductive PagingUE_Identity
  | S_TMSI
  | Imsi
  deriving DecidableEq

/-- Modelled from the spec: one paging record. -/
structure PagingRecord where
  ue_identity : PagingUE_Identity
  deriving DecidableEq

/-- Modelled from the spec: a Paging message body with its optional
record list. -/
structure Paging where
  paging_record_list : Option (List PagingRecord)
  deriving DecidableEq

/-- Modelled from the spec: the PCCH message choice. -/
inductive PCCH_MessageType
  | c1Paging (p : Paging)
  | messageClassExtension
  deriving DecidableEq

/-- Modelled from the spec: a PCCH message container. -/
structure PCCH_Message where
  message : PCCH_MessageType
  deriving DecidableEq

/-- Modelled from the spec: `InformationElement::LTE(NAS | DlDcch |
UlDcch | BCCH_BCH | BCCH_DL_SCH | PCCH | MCCH | …)`. The variants that
carry no classifier-relevant payload are parameterless stubs. -/
inductive LteInformationElement
  | NAS (msg : NASMessage)
  | DlDcch (msg : DL_DCCH_Message)
  | UlDcch
  | BcchBch
  | BcchDlSch
  | PCCH (msg : PCCH_Message)
  | MCCH
  deriving DecidableEq

/-- Modelled from the spec: tagged variant `InformationElement = {GSM,
UMTS, LTE(...), FiveG}`; only LTE variants are currently populated, the
others are typed stubs. -/
inductive InformationElement
  | GSM
  | UMTS
  | LTE (lte : LteInformationElement)
  | FiveG
  deriving DecidableEq

/-- Modelled from the spec: `EventType = {Informational | Low | Medium |
High}`, ordered so a harness can fold to a max. -/
inductive EventType
  | Informational
  | Low
  | Medium
  | High
  deriving DecidableEq

/-- Modelled from the spec: `Event = {event_type, message}`. -/
structure Event where
  event_type : EventType
  message : String
  deriving DecidableEq

/-! ## Sliding window (`sliding_window.rs`) -/

/-- State of `SlidingWindowRatio`: ring buffer of recent observations
(`window`, head = oldest), configured capacity (`window_size`), and the
running count of `true` values (`positive_count`). -/
structure SlidingWindowRatio where
  window : List Bool
  window_size : ℕ
  positive_count : ℕ
  deriving DecidableEq

/-- `SlidingWindowRatio::new`. The Rust code asserts `window_size > 0`
(panic on violation), modelled as `none`. -/
def SlidingWindowRatio.new (window_size : ℕ) : Option SlidingWindowRatio :=
  if window_size > 0 then
    some { window := [], window_size := window_size, positive_count := 0 }
  else
    none

/-- `SlidingWindowRatio::push`: if the window is full, pop the front
observation (decrementing `positive_count` if it was positive), then
record the new observation at the back. -/
def SlidingWindowRatio.push (w : SlidingWindowRatio) (is_positive : Bool) :
    SlidingWindowRatio :=
  let w :=
    if w.window.length = w.window_size then
      match w.window with
      | [] => w
      | evicted :: rest =>
          { w with
            window := rest
            positive_count :=
              if evicted then w.positive_count - 1 else w.positive_count }
    else w
  { w with
    window := w.window ++ [is_positive]
    positive_count :=
      if is_positive then w.positive_count + 1 else w.positive_count }

/-- `SlidingWindowRatio::ratio`: `None` when empty, else
`positive_count / len` (an exact `ℚ` models the f64 division). -/
def SlidingWindowRatio.ratio (w : SlidingWindowRatio) : Option ℚ :=
  if w.window.isEmpty then none
  else some ((w.positive_count : ℚ) / (w.window.length : ℚ))

/-- `SlidingWindowRatio::count`. -/
def SlidingWindowRatio.count (w : SlidingWindowRatio) : ℕ :=
  w.window.length

/-! ## IMSI-exposure classifier (`imsi_exposure_classifier.rs`) -/

/-- Categories of IMSI-exposing messages (taxonomy from Tucker et al.). -/
inductive ImsiExposureCategory
  | DirectIdentityRequest
  | AttachReject
  | TauReject
  | ServiceReject
  | AuthenticationReject
  | DetachRequest
  | ConnectionRedirect
  | PagingWithImsi
  deriving DecidableEq

/-- Rust `Debug` rendering of a category (derived `Debug` prints the
variant name). -/
def ImsiExposureCategory.debugRepr : ImsiExposureCategory → String
  | .DirectIdentityRequest => "DirectIdentityRequest"
  | .AttachReject => "AttachReject"
  | .TauReject => "TauReject"
  | .ServiceReject => "ServiceReject"
  | .AuthenticationReject => "AuthenticationReject"
  | .DetachRequest => "DetachRequest"
  | .ConnectionRedirect => "ConnectionRedirect"
  | .PagingWithImsi => "PagingWithImsi"

/-- Result of classifying a message for IMSI exposure potential. -/
structure ImsiExposureClassification where
  category : ImsiExposureCategory
  description : String
  deriving DecidableEq

/-- `classify_emm`: the EMM decision table. Each arm mirrors the Rust
`match` including the `matches!` cause sets and the catch-all. -/
def classify_emm (emm_msg : EMMMessage) : Option ImsiExposureClassification :=
  match emm_msg with
  | .EMMIdentityRequest id_type =>
      some { category := .DirectIdentityRequest
             description := "EMM Identity Request (" ++ id_type.debugRepr ++ ")" }
  | .EMMAttachReject emm_cause =>
      if emm_cause = .IllegalUE ∨ emm_cause = .IllegalME
          ∨ emm_cause = .EPSServicesNotAllowed
          ∨ emm_cause = .EPSServicesAndNonEPSServicesNotAllowed
          ∨ emm_cause = .PLMNNotAllowed
          ∨ emm_cause = .TrackingAreaNotAllowed
          ∨ emm_cause = .RoamingNotAllowedInThisTrackingArea
          ∨ emm_cause = .EPSServicesNotAllowedInThisPLMN
          ∨ emm_cause = .NoSuitableCellsInTrackingArea
          ∨ emm_cause = .RequestedServiceOptionNotAuthorizedInThisPLMN then
        some { category := .AttachReject
               description := "EMM Attach Reject (" ++ emm_cause.debugRepr ++ ")" }
      else
        none
  | .EMMTrackingAreaUpdateReject emm_cause =>
      if emm_cause = .IllegalUE ∨ emm_cause = .IllegalME
          ∨ emm_cause = .EPSServicesNotAllowed
          ∨ emm_cause = .EPSServicesAndNonEPSServicesNotAllowed
          ∨ emm_cause = .TrackingAreaNotAllowed
          ∨ emm_cause = .EPSServicesNotAllowedInThisPLMN
          ∨ emm_cause = .RequestedServiceOptionNotAuthorizedInThisPLMN then
        some { category := .TauReject
               description := "EMM TAU Reject (" ++ emm_cause.debugRepr ++ ")" }
      else
        none
  | .EMMServiceReject emm_cause =>
      if emm_cause = .IllegalUE ∨ emm_cause = .IllegalME
          ∨ emm_cause = .EPSServicesNotAllowed
          ∨ emm_cause = .UEIdentityCannotBeDerivedByTheNetwork
          ∨ emm_cause = .TrackingAreaNotAllowed
          ∨ emm_cause = .EPSServicesNotAllowedInThisPLMN
          ∨ emm_cause = .RequestedServiceOptionNotAuthorizedInThisPLMN then
        some { category := .ServiceReject
               description := "EMM Service Reject (" ++ emm_cause.debugRepr ++ ")" }
      else
        none
  | .EMMAuthenticationReject =>
      some { category := .AuthenticationReject
             description := "EMM Authentication Reject" }
  | .EMMDetachRequestMT eps_detach_type emm_cause =>
      if eps_detach_type.typ ≠ .IMSIDetach then
        some { category := .DetachRequest
               description := "EMM Detach Request (" ++ eps_detach_type.debugRepr
                 ++ ":" ++ emm_cause.debugRepr ++ ")" }
      else
        none
  | .otherEMM => none

/-- `classify_nas`: only EMM messages are classified. -/
def classify_nas (nas_msg : NASMessage) : Option ImsiExposureClassification :=
  match nas_msg with
  | .EMMMessage emm_msg => classify_emm emm_msg
  | _ => none

/-- `classify_dl_dcch`: an RRC Connection Release whose
`redirected_carrier_info` selects GERAN is a connection redirect. -/
def classify_dl_dcch (msg : DL_DCCH_Message) : Option ImsiExposureClassification :=
  match msg.message with
  | .c1RrcConnectionRelease release =>
      match release.critical_extensions with
      | .c1_r8 r8_ies =>
          match r8_ies.redirected_carrier_info with
          | some carrier_info =>
              if carrier_info = .Geran then
                some { category := .ConnectionRedirect
                       description := "RRC Connection Release with redirect to 2G (GERAN)" }
              else
                none
          | none => none
      | _ => none
  | _ => none

/-- `classify_pcch`: a Paging message with any record whose `ue_identity`
is IMSI. The Rust loop returns the same classification for the first
matching record; `List.any` captures that loop exactly. -/
def classify_pcch (msg : PCCH_Message) : Option ImsiExposureClassification :=
  match msg.message with
  | .c1Paging paging =>
      match paging.paging_record_list with
      | some records =>
          if records.any (fun record => record.ue_identity = .Imsi) then
            some { category := .PagingWithImsi
                   description := "Paging with IMSI instead of S-TMSI" }
          else
            none
      | none => none
  | _ => none

/-- `classify_lte`: dispatch on the LTE variant; non-NAS/DL-DCCH/PCCH
variants hit the catch-all. -/
def classify_lte (lte_ie : LteInformationElement) : Option ImsiExposureClassification :=
  match lte_ie with
  | .NAS nas_msg => classify_nas nas_msg
  | .DlDcch msg => classify_dl_dcch msg
  | .PCCH msg => classify_pcch msg
  | _ => none

/-- `classify`: only LTE elements are classified; UMTS, GSM and 5G are
stubs. -/
def classify (ie : InformationElement) : Option ImsiExposureClassification :=
  match ie with
  | .LTE lte_ie => classify_lte lte_ie
  | _ => none

/-- `is_countable_message`: true iff the element is an LTE variant. -/
def is_countable_message (ie : InformationElement) : Bool :=
  match ie with
  | .LTE _ => true
  | _ => false

/-! ## Ratio analyzer (`imsi_exposure_ratio.rs`) -/

/-- `ImsiExposureConfig`, with f64 fields carried as `ℚ`. -/
structure ImsiExposureConfig where
  window_size : ℕ
  baseline_ratio : ℚ
  medium_threshold : ℚ
  high_threshold : ℚ
  min_sample_size : ℕ
  deriving DecidableEq

/-- `ImsiExposureConfig::default()`: window 200, baseline 3%, medium 10%,
high 25%, min sample 50. -/
def ImsiExposureConfig.default : ImsiExposureConfig :=
  { window_size := 200
    baseline_ratio := 3 / 100
    medium_threshold := 10 / 100
    high_threshold := 25 / 100
    min_sample_size := 50 }

/-- Decimal rendering of `q` rounded to one fractional digit, modelling
Rust `{:.1}` formatting of a nonnegative f64. -/
def fmtFixed1 (q : ℚ) : String :=
  let n : ℤ := round (q * 10)
  toString (n / 10) ++ "." ++ toString (n % 10)

/-- Decimal rendering of `q` rounded to an integer, modelling Rust
`{:.0}` formatting of a nonnegative f64. -/
def fmtFixed0 (q : ℚ) : String :=
  toString (round q : ℤ)

/-- The `format!` template shared by the High and Medium arms of the
ratio analyzer: ratio as a percentage, `positive_count/count`, the
triggered threshold (named and as a percentage), and the latest
classification description. -/
def ratio_event_message (ratio : ℚ) (positive_count count : ℕ)
    (threshold_name : String) (threshold : ℚ) (desc : String) : String :=
  "IMSI exposure ratio " ++ fmtFixed1 (ratio * 100) ++ "% ("
    ++ toString positive_count ++ "/" ++ toString count
    ++ " messages) exceeds " ++ threshold_name ++ " threshold "
    ++ fmtFixed0 (threshold * 100) ++ "%. Latest: " ++ desc

/-- State of `ImsiExposureRatioAnalyzer`. -/
structure ImsiExposureRatioAnalyzer where
  config : ImsiExposureConfig
  window : SlidingWindowRatio
  last_classification : Option ImsiExposureClassification
  deriving DecidableEq

/-- `ImsiExposureRatioAnalyzer::new`: builds the sliding window from
`config.window_size`; the window constructor's panic on a zero size is
propagated as `none`. -/
def ImsiExposureRatioAnalyzer.new (config : ImsiExposureConfig) :
    Option ImsiExposureRatioAnalyzer :=
  (SlidingWindowRatio.new config.window_size).map fun window =>
    { config := config, window := window, last_classification := none }

/-- `ImsiExposureRatioAnalyzer::analyze_information_element`, with the
`&mut self` state passed explicitly: returns the optional event and the
updated analyzer. `packet_num` is unused by the source and omitted. -/
def ImsiExposureRatioAnalyzer.analyze_information_element
    (a : ImsiExposureRatioAnalyzer) (ie : InformationElement) :
    Option Event × ImsiExposureRatioAnalyzer :=
  if ¬ is_countable_message ie then
    (none, a)
  else
    let classification := classify ie
    let is_exposing := classification.isSome
    let a := { a with last_classification := classification }
    let a := { a with window := a.window.push is_exposing }
    if a.window.count < a.config.min_sample_size then
      (none, a)
    else
      match a.window.ratio with
      | none => (none, a)
      | some ratio =>
        if ¬ is_exposing then
          (none, a)
        else
          let desc := (a.last_classification.map
            ImsiExposureClassification.description).getD "unknown"
          if a.config.high_threshold ≤ ratio then
            (some { event_type := .High
                    message := ratio_event_message ratio
                      a.window.positive_count a.window.count
                      "high" a.config.high_threshold desc }, a)
          else if a.config.medium_threshold ≤ ratio then
            (some { event_type := .Medium
                    message := ratio_event_message ratio
                      a.window.positive_count a.window.count
                      "medium" a.config.medium_threshold desc }, a)
          else
            (none, a)

/-- Feed a list of information elements through the ratio analyzer in
order, collecting each call's optional event. -/
def ImsiExposureRatioAnalyzer.run (a : ImsiExposureRatioAnalyzer) :
    List InformationElement → List (Option Event) × ImsiExposureRatioAnalyzer
  | [] => ([], a)
  | ie :: rest =>
      let step := a.analyze_information_element ie
      let tail := step.2.run rest
      (step.1 :: tail.1, tail.2)

/-! ## Diagnostic analyzer (`diagnostic.rs`) -/

/-- `DiagnosticAnalyzer::analyze_information_element`: stateless — maps a
classification to an Informational event wrapping its description and
the `Debug` form of its category. -/
def DiagnosticAnalyzer.analyze_information_element (ie : InformationElement) :
    Option Event :=
  (classify ie).map fun classification =>
    { event_type := .Informational
      message := "Diagnostic: " ++ classification.description ++ " ("
        ++ classification.category.debugRepr ++ ")." }

/-! ## Sliding-window lemmas -/

/-- Internal well-formedness of a sliding window: the positive count is
the number of `true` observations stored, and the buffer never exceeds
the configured capacity. -/
def SlidingWindowRatio.Inv (w : SlidingWindowRatio) : Prop :=
  w.positive_count = w.window.count true ∧ w.window.length ≤ w.window_size

theorem SlidingWindowRatio.new_Inv (n : ℕ) (w : SlidingWindowRatio)
    (h : SlidingWindowRatio.new n = some w) : w.Inv ∧ w.window_size = n ∧ 0 < n := by
  unfold SlidingWindowRatio.new at h
  by_cases hn : n > 0
  · simp only [hn, if_pos, Option.some.injEq] at h
    subst h
    refine ⟨⟨rfl, by simp⟩, rfl, hn⟩
  · simp [hn] at h

theorem SlidingWindowRatio.push_window_size (w : SlidingWindowRatio) (b : Bool) :
    (w.push b).window_size = w.window_size := by
  unfold SlidingWindowRatio.push
  by_cases h : w.window.length = w.window_size
  · simp only [h, if_pos]
    cases w.window <;> simp
  · simp [h]

theorem SlidingWindowRatio.push_Inv (w : SlidingWindowRatio) (b : Bool)
    (h : w.Inv) (hw : 0 < w.window_size) : (w.push b).Inv := by
  obtain ⟨h1, h2⟩ := h
  unfold SlidingWindowRatio.Inv SlidingWindowRatio.push
  by_cases hlen : w.window.length = w.window_size
  · rcases hwin : w.window with _ | ⟨e, rest⟩
    · rw [hwin] at hlen
      simp at hlen
      omega
    · rw [hwin] at hlen h1
      simp only [hlen, hwin, if_pos]
      constructor
      · cases e <;> cases b <;>
          simp_all [List.count_append, List.count_cons]
      · simp only [List.length_append, List.length_cons] at *
        simp
        omega
  · simp only [hlen, if_neg, not_false_iff]
    constructor
    · cases b <;> simp_all [List.count_append, List.count_cons]
    · simp
      omega

theorem SlidingWindowRatio.push_of_full (w : SlidingWindowRatio) (b : Bool)
    (hfull : w.window.length = w.window_size) (hpos : 0 < w.window_size) :
    (w.push b).window = w.window.tail ++ [b] := by
  unfold SlidingWindowRatio.push
  rcases hwin : w.window with _ | ⟨e, rest⟩
  · rw [hwin] at hfull
    simp at hfull
    omega
  · rw [hwin] at hfull
    simp [hfull]

theorem SlidingWindowRatio.push_of_not_full (w : SlidingWindowRatio) (b : Bool)
    (h : w.window.length ≠ w.window_size) :
    (w.push b).window = w.window ++ [b] := by
  unfold SlidingWindowRatio.push
  simp [h]

theorem SlidingWindowRatio.ratio_of_nonempty (w : SlidingWindowRatio)
    (h : w.window ≠ []) :
    w.ratio = some ((w.positive_count : ℚ) / (w.count : ℚ)) := by
  unfold SlidingWindowRatio.ratio SlidingWindowRatio.count
  simp [h]

theorem SlidingWindowRatio.foldl_Inv (obs : List Bool) (w : SlidingWindowRatio)
    (h : w.Inv) (hw : 0 < w.window_size) :
    (obs.foldl SlidingWindowRatio.push w).Inv ∧
      (obs.foldl SlidingWindowRatio.push w).window_size = w.window_size := by
  induction obs generalizing w with
  | nil => exact ⟨h, rfl⟩
  | cons b rest ih =>
      have hstep := SlidingWindowRatio.push_Inv w b h hw
      have hsize := SlidingWindowRatio.push_window_size w b
      have := ih (w.push b) hstep (by rw [hsize]; exact hw)
      simpa [hsize] using this

/-- C2. After any sequence of pushes on a window built by `new` with a
positive capacity: `0 ≤ positive_count ≤ len ≤ window_size`; `ratio()` is
exactly `positive_count / len` whenever `len > 0`; and eviction is FIFO —
a push on a full window drops exactly the oldest observation (the deque
front) and appends the new one, while a push on a non-full window only
appends. -/
theorem sliding_window_invariants (ws : ℕ) (w0 : SlidingWindowRatio)
    (hnew : SlidingWindowRatio.new ws = some w0) (obs : List Bool) :
    let w := obs.foldl SlidingWindowRatio.push w0
    w.window_size = ws ∧
    w.positive_count ≤ w.count ∧ w.count ≤ ws ∧
    (0 < w.count → w.ratio = some ((w.positive_count : ℚ) / (w.count : ℚ))) ∧
    (∀ b, w.count = ws → (w.push b).window = w.window.tail ++ [b]) ∧
    (∀ b, w.count < ws → (w.push b).window = w.window ++ [b]) := by
  intro w
  obtain ⟨hinv0, hsize0, hpos⟩ := SlidingWindowRatio.new_Inv ws w0 hnew
  obtain ⟨⟨hcount, hlen⟩, hsize⟩ :=
    SlidingWindowRatio.foldl_Inv obs w0 hinv0 (by omega)
  rw [hsize0] at hsize
  rw [hsize] at hlen
  have hw : w = obs.foldl SlidingWindowRatio.push w0 := rfl
  rw [← hw] at hsize hcount hlen
  refine ⟨hsize, ?_, ?_, ?_, ?_, ?_⟩
  · rw [hcount]
    exact List.count_le_length _ _
  · exact hlen
  · intro hc
    refine SlidingWindowRatio.ratio_of_nonempty w ?_
    unfold SlidingWindowRatio.count at hc
    intro hnil
    rw [hnil] at hc
    simp at hc
  · intro b hfull
    exact SlidingWindowRatio.push_of_full w b (by rw [hsize]; exact hfull) (by omega)
  · intro b hlt
    refine SlidingWindowRatio.push_of_not_full w b ?_
    unfold SlidingWindowRatio.count at hlt
    rw [hsize]
    omega

/-- Witness for C2 at capacity 2 and the observation sequence
`[true, false, true]`: the invariants hold on the resulting window
`[false, true]` with one positive. -/
theorem sliding_window_invariants_witness :
    let w := [true, false, true].foldl SlidingWindowRatio.push
      { window := [], window_size := 2, positive_count := 0 }
    w.window_size = 2 ∧
    w.positive_count ≤ w.count ∧ w.count ≤ 2 ∧
    (0 < w.count → w.ratio = some ((w.positive_count : ℚ) / (w.count : ℚ))) ∧
    (∀ b, w.count = 2 → (w.push b).window = w.window.tail ++ [b]) ∧
    (∀ b, w.count < 2 → (w.push b).window = w.window ++ [b]) :=
  sliding_window_invariants 2
    { window := [], window_size := 2, positive_count := 0 } rfl [true, false, true]

/-! ## Concrete fixtures used by scenario theorems and witnesses -/

/-- A PCCH paging message with a single record whose UE identity is the
IMSI. -/
def imsiPagingMessage : PCCH_Message :=
  { message := .c1Paging { paging_record_list := some [{ ue_identity := .Imsi }] } }

/-- The LTE information element wrapping `imsiPagingMessage`. -/
def pagingImsiIE : InformationElement :=
  .LTE (.PCCH imsiPagingMessage)

/-- A countable but benign LTE element (a NAS message outside the EMM
branch), never classified as exposing. -/
def benignNasIE : InformationElement :=
  .LTE (.NAS .otherNAS)

/-- The default configuration with `min_sample_size` lowered to 1, as in
the spec's "Paging with IMSI" end-to-end scenario. -/
def minSampleOneConfig : ImsiExposureConfig :=
  { ImsiExposureConfig.default with min_sample_size := 1 }

/-- The fresh analyzer state produced by
`ImsiExposureRatioAnalyzer.new minSampleOneConfig`. -/
def minSampleOneAnalyzer : ImsiExposureRatioAnalyzer :=
  { config := minSampleOneConfig
    window := { window := [], window_size := 200, positive_count := 0 }
    last_classification := none }

/-! ## Classifier decision-table theorems -/

/-- The spec's cause set for EMM Attach Reject. -/
def attachRejectExposingCauses : List EMMCause :=
  [.IllegalUE, .IllegalME, .EPSServicesNotAllowed,
   .EPSServicesAndNonEPSServicesNotAllowed, .PLMNNotAllowed,
   .TrackingAreaNotAllowed, .RoamingNotAllowedInThisTrackingArea,
   .EPSServicesNotAllowedInThisPLMN, .NoSuitableCellsInTrackingArea,
   .RequestedServiceOptionNotAuthorizedInThisPLMN]

/-- The spec's cause set for EMM TAU Reject. -/
def tauRejectExposingCauses : List EMMCause :=
  [.IllegalUE, .IllegalME, .EPSServicesNotAllowed,
   .EPSServicesAndNonEPSServicesNotAllowed, .TrackingAreaNotAllowed,
   .EPSServicesNotAllowedInThisPLMN,
   .RequestedServiceOptionNotAuthorizedInThisPLMN]

/-- The spec's cause set for EMM Service Reject. -/
def serviceRejectExposingCauses : List EMMCause :=
  [.IllegalUE, .IllegalME, .EPSServicesNotAllowed,
   .UEIdentityCannotBeDerivedByTheNetwork, .TrackingAreaNotAllowed,
   .EPSServicesNotAllowedInThisPLMN,
   .RequestedServiceOptionNotAuthorizedInThisPLMN]

/-- C3. `classify_emm` follows the spec's decision table: Identity
Request and Authentication Reject are always exposing; Attach Reject,
TAU Reject and Service Reject are exposing exactly when the cause lies
in the table's cause set for that message; a network-initiated Detach
Request is exposing exactly when the detach type is not `IMSIDetach`;
every other EMM message yields `None`. -/
theorem classify_emm_decision_table :
    (∀ t, (classify_emm (.EMMIdentityRequest t)).map
        ImsiExposureClassification.category = some .DirectIdentityRequest) ∧
    ((classify_emm .EMMAuthenticationReject).map
        ImsiExposureClassification.category = some .AuthenticationReject) ∧
    (∀ cause, (classify_emm (.EMMAttachReject cause)).map
        ImsiExposureClassification.category =
      if cause ∈ attachRejectExposingCauses then some .AttachReject else none) ∧
    (∀ cause, (classify_emm (.EMMTrackingAreaUpdateReject cause)).map
        ImsiExposureClassification.category =
      if cause ∈ tauRejectExposingCauses then some .TauReject else none) ∧
    (∀ cause, (classify_emm (.EMMServiceReject cause)).map
        ImsiExposureClassification.category =
      if cause ∈ serviceRejectExposingCauses then some .ServiceReject else none) ∧
    (∀ dt cause, (classify_emm (.EMMDetachRequestMT dt cause)).map
        ImsiExposureClassification.category =
      if dt.typ = .IMSIDetach then none else some .DetachRequest) ∧
    (classify_emm .otherEMM = none) := by
  refine ⟨?_, by decide, ?_, ?_, ?_, ?_, by decide⟩
  · intro t
    cases t <;> decide
  · intro cause
    cases cause <;> decide
  · intro cause
    cases cause <;> decide
  · intro cause
    cases cause <;> decide
  · intro dt cause
    obtain ⟨so, typ⟩ := dt
    cases typ <;> cases so <;> cases cause <;> decide

/-- Spec-side predicate: the DL-DCCH message is an RRC Connection
Release whose `redirected_carrier_info` selects GERAN. -/
def isGeranRedirectRelease (msg : DL_DCCH_Message) : Bool :=
  match msg.message with
  | .c1RrcConnectionRelease release =>
      match release.critical_extensions with
      | .c1_r8 ies => ies.redirected_carrier_info = some .Geran
      | _ => false
  | _ => false

/-- Spec-side predicate: the PCCH message is a Paging message in which
some paging record's `ue_identity` is an IMSI. -/
def pagesWithImsi (msg : PCCH_Message) : Bool :=
  match msg.message with
  | .c1Paging paging =>
      (paging.paging_record_list.getD []).any
        (fun record => record.ue_identity = .Imsi)
  | _ => false

/-- C4. On LTE RRC elements: `classify_dl_dcch` returns
`ConnectionRedirect` iff the element is an RRC Connection Release whose
redirect target is GERAN, `classify_pcch` returns `PagingWithImsi` iff
some paging record carries an IMSI identity, and every other DL-DCCH or
PCCH message yields `None`. -/
theorem classify_rrc_decision_table :
    (∀ msg : DL_DCCH_Message, (classify_dl_dcch msg).map
        ImsiExposureClassification.category =
      if isGeranRedirectRelease msg then some .ConnectionRedirect else none) ∧
    (∀ msg : PCCH_Message, (classify_pcch msg).map
        ImsiExposureClassification.category =
      if pagesWithImsi msg then some .PagingWithImsi else none) := by
  constructor
  · intro msg
    obtain ⟨mt⟩ := msg
    rcases mt with release | _ | _
    · obtain ⟨ce⟩ := release
      rcases ce with ⟨ies⟩ | _
      · obtain ⟨rci⟩ := ies
        rcases rci with _ | ci
        · simp [classify_dl_dcch, isGeranRedirectRelease]
        · cases ci <;> simp [classify_dl_dcch, isGeranRedirectRelease]
      · simp [classify_dl_dcch, isGeranRedirectRelease]
    · simp [classify_dl_dcch, isGeranRedirectRelease]
    · simp [classify_dl_dcch, isGeranRedirectRelease]
  · intro msg
    obtain ⟨mt⟩ := msg
    rcases mt with paging | _
    · obtain ⟨lst⟩ := paging
      rcases lst with _ | l
      · simp [classify_pcch, pagesWithImsi]
      · by_cases hany : (l.any (fun record => record.ue_identity = .Imsi)) = true
        · simp [classify_pcch, pagesWithImsi, hany]
        · simp [classify_pcch, pagesWithImsi, hany]
    · simp [classify_pcch, pagesWithImsi]

/-! ## Ratio-analyzer step lemmas -/

theorem ImsiExposureRatioAnalyzer.analyze_eq_of_countable
    (a : ImsiExposureRatioAnalyzer) (ie : InformationElement)
    (hc : is_countable_message ie = true) :
    a.analyze_information_element ie =
      (let A : ImsiExposureRatioAnalyzer :=
        { a with last_classification := classify ie
                 window := a.window.push (classify ie).isSome }
       if A.window.count < A.config.min_sample_size then (none, A)
       else
         match A.window.ratio with
         | none => (none, A)
         | some q =>
           if ¬ (classify ie).isSome then (none, A)
           else
             let desc := (A.last_classification.map
               ImsiExposureClassification.description).getD "unknown"
             if A.config.high_threshold ≤ q then
               (some { event_type := .High
                       message := ratio_event_message q
                         A.window.positive_count A.window.count
                         "high" A.config.high_threshold desc }, A)
             else if A.config.medium_threshold ≤ q then
               (some { event_type := .Medium
                       message := ratio_event_message q
                         A.window.positive_count A.window.count
                         "medium" A.config.medium_threshold desc }, A)
             else (none, A)) := by
  unfold ImsiExposureRatioAnalyzer.analyze_information_element
  rw [if_neg (by simp [hc])]

theorem SlidingWindowRatio.count_push (w : SlidingWindowRatio) (b : Bool)
    (hlen : w.window.length ≤ w.window_size) (hpos : 0 < w.window_size) :
    (w.push b).count = min (w.count + 1) w.window_size := by
  unfold SlidingWindowRatio.count
  by_cases h : w.window.length = w.window_size
  · rw [SlidingWindowRatio.push_of_full w b h hpos]
    simp [List.length_tail]
    omega
  · rw [SlidingWindowRatio.push_of_not_full w b h]
    simp
    omega

theorem SlidingWindowRatio.push_getLast (w : SlidingWindowRatio) (b : Bool) :
    (w.push b).window.getLast? = some b := by
  unfold SlidingWindowRatio.push
  by_cases h : w.window.length = w.window_size
  · simp only [h, if_pos]
    cases w.window <;> simp
  · simp [h]

theorem SlidingWindowRatio.length_push_le (w : SlidingWindowRatio) (b : Bool)
    (hlen : w.window.length ≤ w.window_size) (hpos : 0 < w.window_size) :
    (w.push b).window.length ≤ w.window_size := by
  by_cases h : w.window.length = w.window_size
  · rw [SlidingWindowRatio.push_of_full w b h hpos]
    simp [List.length_tail]
    omega
  · rw [SlidingWindowRatio.push_of_not_full w b h]
    simp
    omega

/-- C1. On every countable element, the ratio analyzer first pushes
`is_exposing` into the sliding window (the returned state carries the
pushed window and the new classification); it returns `None` when the
post-push window count is below `min_sample_size`; it returns `None`
when the element itself is not exposing; otherwise it emits High when
`ratio ≥ high_threshold`, else Medium when `ratio ≥ medium_threshold`,
else `None` — and the emitted message is the template carrying the
ratio, `positive_count/count`, the triggered threshold, and the latest
classification description. -/
theorem ratio_analyzer_step_spec
    (a : ImsiExposureRatioAnalyzer) (ie : InformationElement)
    (hc : is_countable_message ie = true) :
    (a.analyze_information_element ie).2 =
      { a with last_classification := classify ie
               window := a.window.push (classify ie).isSome } ∧
    ((a.window.push (classify ie).isSome).count < a.config.min_sample_size →
      (a.analyze_information_element ie).1 = none) ∧
    (classify ie = none → (a.analyze_information_element ie).1 = none) ∧
    (∀ c, classify ie = some c →
      a.config.min_sample_size ≤ (a.window.push true).count →
      ∀ q, (a.window.push true).ratio = some q →
        ((a.config.high_threshold ≤ q →
           (a.analyze_information_element ie).1 =
             some { event_type := .High
                    message := ratio_event_message q
                      (a.window.push true).positive_count
                      (a.window.push true).count
                      "high" a.config.high_threshold c.description }) ∧
         (¬ a.config.high_threshold ≤ q → a.config.medium_threshold ≤ q →
           (a.analyze_information_element ie).1 =
             some { event_type := .Medium
                    message := ratio_event_message q
                      (a.window.push true).positive_count
                      (a.window.push true).count
                      "medium" a.config.medium_threshold c.description }) ∧
         (¬ a.config.high_threshold ≤ q → ¬ a.config.medium_threshold ≤ q →
           (a.analyze_information_element ie).1 = none))) := by
  have hEq := ImsiExposureRatioAnalyzer.analyze_eq_of_countable a ie hc
  refine ⟨?_, ?_, ?_, ?_⟩
  · simp only [hEq]
    repeat' split
    all_goals rfl
  · intro hcount
    simp only [hEq]
    rw [if_pos hcount]
  · intro hnone
    simp only [hEq, hnone, Option.isSome_none]
    by_cases hcount :
        (a.window.push false).count < a.config.min_sample_size
    · rw [if_pos hcount]
    · rw [if_neg hcount]
      rcases hr : (a.window.push false).ratio with _ | q <;> simp [hr]
  · intro c hcls hmin q hq
    simp only [hEq, hcls, Option.isSome_some]
    rw [if_neg (Nat.not_lt.mpr hmin), hq]
    simp only [Bool.not_true, Option.map_some', Option.getD_some]
    refine ⟨?_, ?_, ?_⟩
    · intro hhigh
      simp [hhigh]
    · intro hnothigh hmed
      simp [hnothigh, hmed]
    · intro hnothigh hnotmed
      simp [hnothigh, hnotmed]

/-- Witness for C1: on a fresh analyzer with `min_sample_size = 1`, the
IMSI-paging element takes the High branch of the step specification. -/
theorem ratio_analyzer_step_spec_witness :
    (minSampleOneAnalyzer.analyze_information_element pagingImsiIE).1 =
      some { event_type := .High
             message := ratio_event_message 1
               (minSampleOneAnalyzer.window.push true).positive_count
               (minSampleOneAnalyzer.window.push true).count
               "high" minSampleOneAnalyzer.config.high_threshold
               "Paging with IMSI instead of S-TMSI" } := by
  have h := ratio_analyzer_step_spec minSampleOneAnalyzer pagingImsiIE rfl
  have hmin : minSampleOneAnalyzer.config.min_sample_size ≤
      (minSampleOneAnalyzer.window.push true).count := by
    decide
  have hratio : (minSampleOneAnalyzer.window.push true).ratio = some 1 := by
    norm_num [minSampleOneAnalyzer, SlidingWindowRatio.push, SlidingWindowRatio.ratio,
      SlidingWindowRatio.count]
  have hhigh : minSampleOneAnalyzer.config.high_threshold ≤ (1 : ℚ) := by
    norm_num [minSampleOneAnalyzer, minSampleOneConfig, ImsiExposureConfig.default]
  exact (h.2.2.2
    { category := .PagingWithImsi
      description := "Paging with IMSI instead of S-TMSI" }
    rfl hmin 1 hratio).1 hhigh

/-- C5. A countable element that is not exposing produces no event, yet
the sliding window is still updated: the step pushes `false`, the
window's count grows by one capped at the capacity, and the latest
recorded observation is `false`. -/
theorem nonexposing_element_still_counted
    (a : ImsiExposureRatioAnalyzer) (ie : InformationElement)
    (hc : is_countable_message ie = true) (hnone : classify ie = none)
    (hlen : a.window.window.length ≤ a.window.window_size)
    (hpos : 0 < a.window.window_size) :
    (a.analyze_information_element ie).1 = none ∧
    (a.analyze_information_element ie).2.window = a.window.push false ∧
    (a.analyze_information_element ie).2.window.count =
      min (a.window.count + 1) a.window.window_size ∧
    (a.analyze_information_element ie).2.window.window.getLast? = some false := by
  have hEq := ImsiExposureRatioAnalyzer.analyze_eq_of_countable a ie hc
  have hwin : (a.analyze_information_element ie).2.window = a.window.push false := by
    simp only [hEq, hnone, Option.isSome_none]
    repeat' split
    all_goals rfl
  refine ⟨?_, hwin, ?_, ?_⟩
  · simp only [hEq, hnone, Option.isSome_none]
    by_cases hcount : (a.window.push false).count < a.config.min_sample_size
    · rw [if_pos hcount]
    · rw [if_neg hcount]
      rcases hr : (a.window.push false).ratio with _ | q <;> simp [hr]
  · rw [hwin]
    exact SlidingWindowRatio.count_push a.window false hlen hpos
  · rw [hwin]
    exact SlidingWindowRatio.push_getLast a.window false

/-- Witness for C5: the benign LTE NAS element on the fresh
`min_sample_size = 1` analyzer: no event, the `false` observation is
recorded and the count grows from 0 to 1. -/
theorem nonexposing_element_still_counted_witness :
    (minSampleOneAnalyzer.analyze_information_element benignNasIE).1 = none ∧
    (minSampleOneAnalyzer.analyze_information_element benignNasIE).2.window =
      minSampleOneAnalyzer.window.push false ∧
    (minSampleOneAnalyzer.analyze_information_element benignNasIE).2.window.count =
      min (minSampleOneAnalyzer.window.count + 1)
        minSampleOneAnalyzer.window.window_size ∧
    (minSampleOneAnalyzer.analyze_information_element
        benignNasIE).2.window.window.getLast? = some false :=
  nonexposing_element_still_counted minSampleOneAnalyzer benignNasIE
    rfl rfl (by decide) (by decide)

/-- C6. `is_countable_message` holds exactly on LTE variants: it is true
on every LTE element and false on the GSM, UMTS and 5G stubs; on each
non-LTE stub the ratio analyzer returns `None` and its state — window
contents, counts and configuration included — is returned unchanged. -/
theorem non_lte_elements_left_uncounted
    (a : ImsiExposureRatioAnalyzer) (lte : LteInformationElement) :
    is_countable_message (.LTE lte) = true ∧
    is_countable_message .GSM = false ∧
    is_countable_message .UMTS = false ∧
    is_countable_message .FiveG = false ∧
    a.analyze_information_element .GSM = (none, a) ∧
    a.analyze_information_element .UMTS = (none, a) ∧
    a.analyze_information_element .FiveG = (none, a) := by
  refine ⟨rfl, rfl, rfl, rfl, ?_, ?_, ?_⟩ <;>
    (unfold ImsiExposureRatioAnalyzer.analyze_information_element
     rw [if_pos (by simp [is_countable_message])])

/-- C7. The diagnostic analyzer is the classifier post-composed with an
`Informational` wrapper: it emits exactly on classified (exposing)
elements, the emitted message carries the classification's human
description, and every event it ever emits has severity
`Informational`. -/
theorem diagnostic_analyzer_informational (ie : InformationElement) :
    DiagnosticAnalyzer.analyze_information_element ie =
      (classify ie).map (fun c =>
        { event_type := .Informational
          message := "Diagnostic: " ++ c.description ++ " ("
            ++ c.category.debugRepr ++ ")." }) ∧
    (∀ c, classify ie = some c →
      DiagnosticAnalyzer.analyze_information_element ie =
        some { event_type := .Informational
               message := "Diagnostic: " ++ c.description ++ " ("
                 ++ c.category.debugRepr ++ ")." }) ∧
    (classify ie = none → DiagnosticAnalyzer.analyze_information_element ie = none) ∧
    (∀ e, DiagnosticAnalyzer.analyze_information_element ie = some e →
      e.event_type = .Informational) := by
  refine ⟨rfl, ?_, ?_, ?_⟩
  · intro c hcls
    unfold DiagnosticAnalyzer.analyze_information_element
    rw [hcls]
    rfl
  · intro hcls
    unfold DiagnosticAnalyzer.analyze_information_element
    rw [hcls]
    rfl
  · intro e he
    unfold DiagnosticAnalyzer.analyze_information_element at he
    rcases hcls : classify ie with _ | c
    · rw [hcls] at he
      simp at he
    · rw [hcls] at he
      simp only [Option.map_some', Option.some.injEq] at he
      rw [← he]

/-- Witness for C7: on the IMSI-paging element the diagnostic analyzer
emits the Informational diagnostic for `PagingWithImsi`. -/
theorem diagnostic_analyzer_informational_witness :
    DiagnosticAnalyzer.analyze_information_element pagingImsiIE =
      some { event_type := .Informational
             message := "Diagnostic: Paging with IMSI instead of S-TMSI (PagingWithImsi)." } :=
  (diagnostic_analyzer_informational pagingImsiIE).2.1
    { category := .PagingWithImsi
      description := "Paging with IMSI instead of S-TMSI" } rfl

/-- C8. With `min_sample_size = 1` and the other defaults, the very
first countable element — an LTE PCCH paging record whose identity is
the IMSI — drives a fresh ratio analyzer to a High event: the
single-observation window has ratio 1 which meets the 25% high
threshold; and the diagnostic analyzer tags the same element
`Informational` with description "Paging with IMSI instead of
S-TMSI". -/
theorem paging_with_imsi_first_message_high :
    ImsiExposureRatioAnalyzer.new minSampleOneConfig = some minSampleOneAnalyzer ∧
    (classify pagingImsiIE).map ImsiExposureClassification.description =
      some "Paging with IMSI instead of S-TMSI" ∧
    (minSampleOneAnalyzer.analyze_information_element pagingImsiIE).1 =
      some { event_type := .High
             message := "IMSI exposure ratio 100.0% (1/1 messages) exceeds high threshold 25%. Latest: Paging with IMSI instead of S-TMSI" } ∧
    (minSampleOneAnalyzer.analyze_information_element pagingImsiIE).2.window.count = 1 ∧
    (minSampleOneAnalyzer.analyze_information_element pagingImsiIE).2.window.ratio =
      some 1 ∧
    minSampleOneConfig.high_threshold ≤ 1 ∧
    DiagnosticAnalyzer.analyze_information_element pagingImsiIE =
      some { event_type := .Informational
             message := "Diagnostic: Paging with IMSI instead of S-TMSI (PagingWithImsi)." } := by
  have hstate : (minSampleOneAnalyzer.analyze_information_element pagingImsiIE).2 =
      { config := minSampleOneConfig
        window := { window := [true], window_size := 200, positive_count := 1 }
        last_classification :=
          some { category := .PagingWithImsi
                 description := "Paging with IMSI instead of S-TMSI" } } := by
    norm_num [ImsiExposureRatioAnalyzer.analyze_information_element, minSampleOneAnalyzer,
      minSampleOneConfig, ImsiExposureConfig.default, is_countable_message, classify,
      classify_lte, classify_pcch, pagingImsiIE, imsiPagingMessage,
      SlidingWindowRatio.push, SlidingWindowRatio.count, SlidingWindowRatio.ratio]
  refine ⟨rfl, by decide, ?_, ?_, ?_, ?_, by decide⟩
  · norm_num [ImsiExposureRatioAnalyzer.analyze_information_element, minSampleOneAnalyzer,
      minSampleOneConfig, ImsiExposureConfig.default, is_countable_message, classify,
      classify_lte, classify_pcch, pagingImsiIE, imsiPagingMessage,
      SlidingWindowRatio.push, SlidingWindowRatio.count, SlidingWindowRatio.ratio,
      ratio_event_message, fmtFixed1, fmtFixed0]
    decide
  · rw [hstate]
    rfl
  · rw [hstate]
    norm_num [SlidingWindowRatio.ratio]
  · norm_num [minSampleOneConfig, ImsiExposureConfig.default]

/-- C9. `SlidingWindowRatio::new(0)` panics (modelled as `none`), so an
analyzer configured with `window_size = 0` panics in its constructor;
for every positive window size both constructors succeed, yielding the
empty window with the requested capacity (on which `push`, `ratio`,
`count` and `positive_count` are total functions). -/
theorem constructor_zero_window_panics :
    SlidingWindowRatio.new 0 = none ∧
    (∀ cfg : ImsiExposureConfig, cfg.window_size = 0 →
      ImsiExposureRatioAnalyzer.new cfg = none) ∧
    (∀ n, 0 < n → SlidingWindowRatio.new n =
      some { window := [], window_size := n, positive_count := 0 }) ∧
    (∀ cfg : ImsiExposureConfig, 0 < cfg.window_size →
      ImsiExposureRatioAnalyzer.new cfg =
        some { config := cfg
               window := { window := [], window_size := cfg.window_size
                           positive_count := 0 }
               last_classification := none }) := by
  refine ⟨rfl, ?_, ?_, ?_⟩
  · intro cfg h0
    unfold ImsiExposureRatioAnalyzer.new SlidingWindowRatio.new
    rw [h0]
    rfl
  · intro n hn
    unfold SlidingWindowRatio.new
    rw [if_pos hn]
  · intro cfg hpos
    unfold ImsiExposureRatioAnalyzer.new SlidingWindowRatio.new
    rw [if_pos hpos]
    rfl

/-- Witness for C9: the `min_sample_size = 1` configuration has a
positive window size, so construction succeeds with the fresh empty
window. -/
theorem constructor_zero_window_panics_witness :
    ImsiExposureRatioAnalyzer.new minSampleOneConfig =
      some { config := minSampleOneConfig
             window := { window := [], window_size := minSampleOneConfig.window_size
                         positive_count := 0 }
             last_classification := none } :=
  constructor_zero_window_panics.2.2.2 minSampleOneConfig (by decide)

theorem ImsiExposureRatioAnalyzer.new_inv (cfg : ImsiExposureConfig)
    (a : ImsiExposureRatioAnalyzer) (h : ImsiExposureRatioAnalyzer.new cfg = some a) :
    a.config = cfg ∧
    a.window = { window := [], window_size := cfg.window_size, positive_count := 0 } ∧
    0 < cfg.window_size := by
  unfold ImsiExposureRatioAnalyzer.new SlidingWindowRatio.new at h
  by_cases h0 : cfg.window_size > 0
  · rw [if_pos h0] at h
    simp only [Option.map_some', Option.some.injEq] at h
    rw [← h]
    exact ⟨rfl, rfl, h0⟩
  · rw [if_neg h0] at h
    simp at h

theorem ImsiExposureRatioAnalyzer.analyze_none_of_starved
    (a : ImsiExposureRatioAnalyzer) (ie : InformationElement)
    (hlen : a.window.window.length ≤ a.window.window_size)
    (hpos : 0 < a.window.window_size)
    (hgt : a.window.window_size < a.config.min_sample_size) :
    (a.analyze_information_element ie).1 = none ∧
    (a.analyze_information_element ie).2.window.window.length ≤
      (a.analyze_information_element ie).2.window.window_size ∧
    (a.analyze_information_element ie).2.window.window_size = a.window.window_size ∧
    (a.analyze_information_element ie).2.config = a.config := by
  by_cases hc : is_countable_message ie = true
  · have hEq := ImsiExposureRatioAnalyzer.analyze_eq_of_countable a ie hc
    have hcount : (a.window.push (classify ie).isSome).count <
        a.config.min_sample_size := by
      have := SlidingWindowRatio.length_push_le a.window (classify ie).isSome hlen hpos
      unfold SlidingWindowRatio.count
      omega
    have hsz := SlidingWindowRatio.push_window_size a.window (classify ie).isSome
    simp only [hEq]
    rw [if_pos hcount]
    refine ⟨rfl, ?_, hsz, rfl⟩
    rw [hsz]
    exact SlidingWindowRatio.length_push_le a.window (classify ie).isSome hlen hpos
  · unfold ImsiExposureRatioAnalyzer.analyze_information_element
    rw [if_pos (by simpa using hc)]
    exact ⟨rfl, hlen, rfl, rfl⟩

theorem ImsiExposureRatioAnalyzer.run_all_none_of_starved
    (ies : List InformationElement) :
    ∀ a : ImsiExposureRatioAnalyzer,
      a.window.window.length ≤ a.window.window_size →
      0 < a.window.window_size →
      a.window.window_size < a.config.min_sample_size →
      ((a.run ies).1.all fun e => e.isNone) = true := by
  induction ies with
  | nil =>
      intro a _ _ _
      rfl
  | cons ie rest ih =>
      intro a hlen hpos hgt
      obtain ⟨h1, h2, h3, h4⟩ :=
        ImsiExposureRatioAnalyzer.analyze_none_of_starved a ie hlen hpos hgt
      have htail := ih (a.analyze_information_element ie).2
        h2 (by rw [h3]; exact hpos) (by rw [h3, h4]; exact hgt)
      simp only [ImsiExposureRatioAnalyzer.run, List.all_cons, h1, htail,
        Option.isNone_none, Bool.and_self]

/-- C10. If an analyzer is constructed with
`min_sample_size > window_size`, then `analyze` returns `None` on every
element of every input sequence: the window's count never exceeds
`window_size`, hence never reaches `min_sample_size`, so the analyzer
can never emit an event. -/
theorem starved_analyzer_never_emits (cfg : ImsiExposureConfig)
    (a0 : ImsiExposureRatioAnalyzer)
    (hnew : ImsiExposureRatioAnalyzer.new cfg = some a0)
    (hgt : cfg.window_size < cfg.min_sample_size)
    (ies : List InformationElement) :
    ((a0.run ies).1.all fun e => e.isNone) = true := by
  obtain ⟨hcfg, hwin, hpos⟩ := ImsiExposureRatioAnalyzer.new_inv cfg a0 hnew
  refine ImsiExposureRatioAnalyzer.run_all_none_of_starved ies a0 ?_ ?_ ?_
  · rw [hwin]
    simp
  · rw [hwin]
    exact hpos
  · rw [hwin, hcfg]
    exact hgt

/-- A one-message window whose `min_sample_size` of 2 can never be
reached. -/
def starvedConfig : ImsiExposureConfig :=
  { window_size := 1
    baseline_ratio := 3 / 100
    medium_threshold := 10 / 100
    high_threshold := 25 / 100
    min_sample_size := 2 }

/-- The analyzer produced by `ImsiExposureRatioAnalyzer.new starvedConfig`. -/
def starvedAnalyzer : ImsiExposureRatioAnalyzer :=
  { config := starvedConfig
    window := { window := [], window_size := starvedConfig.window_size
                positive_count := 0 }
    last_classification := none }

/-- Witness for C10: three consecutive IMSI-paging elements — each
exposing, ratio pinned at 1 — still produce no event when
`min_sample_size = 2` exceeds `window_size = 1`. -/
theorem starved_analyzer_never_emits_witness :
    ((starvedAnalyzer.run [pagingImsiIE, pagingImsiIE, pagingImsiIE]).1.all
      fun e => e.isNone) = true :=
  starved_analyzer_never_emits starvedConfig starvedAnalyzer rfl
    (by decide) [pagingImsiIE, pagingImsiIE, pagingImsiIE]
